import Mathlib

/-
  Shallow embedding of src/hwt9053_angle/hwt9053.js (tiltmeter ingestion agent).

  Bytes are modelled as `Nat` values < 256 (hypotheses state the bound where a
  proof needs it).  Timestamps are modelled as `Int` milliseconds.  The
  asynchronous network sends are modelled by boolean oracles (`primaryOk`,
  `resendOk`), and the per-day log files consulted during backfill by a
  `List (Option (List Entry))` (`none` = unreadable file, as in the
  `fs.promises.readFile` catch branch).
-/

set_option maxRecDepth 10000

namespace Tiltmeter

/-- Magic header of a frame: `Buffer.from([0x50, 0x03, 0x0c])` (line 112). -/
def MAGIC : List Nat := [0x50, 0x03, 0x0c]

/-- One shift round of the CRC loop (lines 283-287):
`if (crc & 1) crc = (crc >> 1) ^ 0xA001 else crc >>= 1`. -/
def crcRound (crc : Nat) : Nat :=
  if crc % 2 = 1 then (crc / 2) ^^^ 0xA001 else crc / 2

/-- Processing of one byte (lines 281-288): xor the byte in, then 8 rounds. -/
def crcByte (crc b : Nat) : Nat := crcRound^[8] (crc ^^^ b)

/-- `crc16Modbus` of lines 278-291: fold over the bytes starting from 0xFFFF. -/
def crc16Modbus (l : List Nat) : Nat := l.foldl crcByte 0xFFFF

/-- The two-byte little-endian buffer returned at line 290:
`Buffer.from([crc & 0xFF, (crc >> 8) & 0xFF])`. -/
def crcBytesLE (c : Nat) : List Nat := [c % 256, c / 256 % 256]

/-- The CRC check of lines 113-114: computed CRC bytes equal bytes 15 and 16. -/
def crcOk (buf : List Nat) : Bool :=
  crcBytesLE (crc16Modbus (buf.take 15)) == [buf.getD 15 0, buf.getD 16 0]

/-- JavaScript `ToInt32` of an unsigned 32-bit value: the result of the
`<<`/`|` chain at lines 115-117 is a signed 32-bit integer. -/
def toInt32 (u : Nat) : Int :=
  if u % 2 ^ 32 < 2 ^ 31 then (u % 2 ^ 32 : Nat) else (u % 2 ^ 32 : Nat) - 2 ^ 32

/-- The unsigned reassembly `b[off+2] << 24 | b[off+3] << 16 | b[off] << 8 | b[off+1]`
(lines 115-117; `off` = 3, 7, 11). -/
def axisUnsigned (b : List Nat) (off : Nat) : Nat :=
  b.getD (off + 2) 0 <<< 24 ||| b.getD (off + 3) 0 <<< 16 |||
    b.getD off 0 <<< 8 ||| b.getD (off + 1) 0

/-- The signed 32-bit axis value before the division by 1000. -/
def axisValue (b : List Nat) (off : Nat) : Int := toInt32 (axisUnsigned b off)

/-- Three-digit zero padding of the fractional part. -/
def pad3 (n : Nat) : String :=
  if n < 10 then "00" ++ toString n else if n < 100 then "0" ++ toString n else toString n

/-- `(v / 1000).toFixed(3)` for a signed integer `v` (lines 127-129): the
decimal expansion of v/1000 with exactly three fractional digits. -/
def formatFixed3 (v : Int) : String :=
  (if v < 0 then "-" else "") ++ toString (v.natAbs / 1000) ++ "." ++ pad3 (v.natAbs % 1000)

/-- Context fixed during one chunk: device id and auxiliary metric results
(each `none` when its probe failed, lines 119-123). -/
structure Ctx where
  device_id : String
  cpuTemp : Option Int
  cpuVolt : Option Int
  rssi : Option Int
  memUsage : Option Int
  diskUsage : Option Int
deriving Repr, DecidableEq

/-- The payload built at lines 125-136. -/
structure Payload where
  sensing_time : Int
  ang_x : String
  ang_y : String
  ang_z : String
  device_id : String
  cpu_temperture : Option Int
  cpu_voltage : Option Int
  rssi : Option Int
  memUsage : Option Int
  diskUsage : Option Int
deriving Repr, DecidableEq

/-- A record handed to `dailyLogger.save`: either a full reading payload or an
error object `{sensing_time, error}` (lines 147-150, 161-164). -/
inductive LogRec where
  | reading (p : Payload)
  | err (sensing_time : Int) (msg : String)
deriving Repr, DecidableEq

/-- An observable action of the decoder loop: a call to `sendDataToTcpServer`
or a call to `dailyLogger.save`. -/
inductive Ev where
  | send (p : Payload)
  | save (r : LogRec)
deriving Repr, DecidableEq

def mkPayload (ctx : Ctx) (t : Int) (buf : List Nat) : Payload :=
  { sensing_time := t
    ang_x := formatFixed3 (axisValue buf 3)
    ang_y := formatFixed3 (axisValue buf 7)
    ang_z := formatFixed3 (axisValue buf 11)
    device_id := ctx.device_id
    cpu_temperture := ctx.cpuTemp
    cpu_voltage := ctx.cpuVolt
    rssi := ctx.rssi
    memUsage := ctx.memUsage
    diskUsage := ctx.diskUsage }

/-- Helper for `Buffer.indexOf(v, start)`: scan `l` returning the index of the
first element equal to `v`, counting from `i`. -/
def findFrom (v : Nat) : List Nat → Nat → Option Nat
  | [], _ => none
  | b :: rest, i => if b = v then some i else findFrom v rest (i + 1)

/-- `dataBuffer.indexOf(0x50, 1)` of line 155 (as `none` instead of -1): the
absolute index of the first occurrence of `v` at position `start` or later. -/
def jsIndexOf (buf : List Nat) (v start : Nat) : Option Nat :=
  (findFrom v (buf.drop start) 0).map (fun i => start + i)

/-- The `while (dataBuffer.length >= 17)` loop of lines 111-170, as a function
from the buffered bytes to the list of observable actions (in program order)
and the leftover buffer.  `t` abstracts `getPreciseAbsoluteTime()`. -/
def processBuffer (ctx : Ctx) (t : Int) (buf : List Nat) : List Ev × List Nat :=
  if h17 : 17 ≤ buf.length then
    if buf.take 3 = MAGIC then
      if crcOk buf then
        let p := mkPayload ctx t buf
        let r := processBuffer ctx t (buf.drop 17)
        (Ev.send p :: Ev.save (LogRec.reading p) :: r.1, r.2)
      else
        let r := processBuffer ctx t (buf.drop 17)
        (Ev.save (LogRec.err t "CRC validation failed") :: r.1, r.2)
    else
      match hidx : jsIndexOf buf 0x50 1 with
      | some k => processBuffer ctx t (buf.drop k)
      | none => ([Ev.save (LogRec.err t "No valid frame found")], [])
  else ([], buf)
termination_by buf.length
decreasing_by
  · simp only [List.length_drop]; omega
  · simp only [List.length_drop]; omega
  · have hk : 1 ≤ k := by
      unfold jsIndexOf at hidx
      rcases hfind : findFrom 0x50 (buf.drop 1) 0 with _ | i <;> rw [hfind] at hidx <;>
        simp at hidx
      omega
    simp only [List.length_drop]; omega

/-- Payloads passed to `sendDataToTcpServer`, in order. -/
def sentPayloads (evs : List Ev) : List Payload :=
  evs.filterMap fun e =>
    match e with
    | Ev.send p => some p
    | _ => none

/-- Reading payloads passed to `dailyLogger.save`, in order. -/
def savedReadings (evs : List Ev) : List Payload :=
  evs.filterMap fun e =>
    match e with
    | Ev.save (LogRec.reading p) => some p
    | _ => none

/-- Error records passed to `dailyLogger.save`, in order. -/
def savedErrors (evs : List Ev) : List (Int × String) :=
  evs.filterMap fun e =>
    match e with
    | Ev.save (LogRec.err ts m) => some (ts, m)
    | _ => none

/-! ### Delivery pipeline (`sendDataToTcpServer`, lines 185-263) -/

/-- A JSON log entry as read back from a daily log file during backfill: a
timestamp plus the three angle fields when present (`hasOwnProperty` checks of
lines 216-218). -/
structure Entry where
  sensing_time : Int
  ang_x : Option String
  ang_y : Option String
  ang_z : Option String
deriving Repr, DecidableEq

/-- The filter predicate of lines 212-219. -/
def candidateOk (lastT curT : Int) (e : Entry) : Bool :=
  decide (lastT < e.sensing_time) && decide (e.sensing_time ≤ curT) &&
    e.ang_x.isSome && e.ang_y.isSome && e.ang_z.isSome

/-- Lines 205-226: per day, filter the file's entries (an unreadable file
contributes nothing), concatenate in day order, then reverse. -/
def collectUnsent (dayFiles : List (Option (List Entry))) (lastT curT : Int) : List Entry :=
  ((dayFiles.map fun f => (f.getD []).filter (candidateOk lastT curT)).flatten).reverse

/-- The resend loop of lines 228-237: attempt candidates in order; a success
sets `lastSuccessTime` to that entry's timestamp, the first failure breaks.
Returns the final `lastSuccessTime` and the list of attempted entries.
`ok i` is the outcome of the i-th `axios.post` of the episode. -/
def deliverLoop (ok : Nat → Bool) : Nat → Option Int → List Entry → Option Int × List Entry
  | _, lst, [] => (lst, [])
  | i, lst, e :: rest =>
    if ok i then
      let r := deliverLoop ok (i + 1) (some e.sensing_time) rest
      (r.1, e :: r.2)
    else (lst, [e])

/-- A JavaScript value, enough to model the strict comparison at line 247. -/
inductive JSVal where
  | str (s : String)
  | bool (b : Bool)
deriving Repr, DecidableEq

/-- JavaScript strict equality `===`: operands of different types are never
equal. -/
def jsStrictEq : JSVal → JSVal → Bool
  | JSVal.str a, JSVal.str b => a == b
  | JSVal.bool a, JSVal.bool b => a == b
  | _, _ => false

/-- Configuration read from the environment.  `process.env` values are always
strings, so `backupTcpTest` is the raw string of `BACKUP_TCP_TEST`. -/
structure Cfg where
  device_id : String
  sampleRate : Int
  backupTcpTest : String
deriving Repr, DecidableEq

/-- JavaScript string interpolation of a possibly-null number. -/
def optIntStr : Option Int → String
  | none => "null"
  | some n => toString n

/-- The delimited ASCII record of line 249. -/
def backupRecord (cfg : Cfg) (p : Payload) : String :=
  "$$$" ++ cfg.device_id ++ "," ++ toString p.sensing_time ++ "," ++ p.ang_x ++ "," ++
    p.ang_y ++ "," ++ p.ang_z ++ "," ++ optIntStr p.cpu_temperture ++ "," ++
    optIntStr p.cpu_voltage ++ "," ++ optIntStr p.rssi ++ "###"

/-- Result of the `try { ... } catch` block of lines 188-243 (primary send,
gap check, backfill episode). -/
structure EpisodeResult where
  primaryFailureLogged : Bool
  backfillStarted : Bool
  attempted : List Entry
  lastAfterEpisode : Option Int
deriving Repr, DecidableEq

/-- Lines 188-243.  `primaryOk` is the outcome of the `axios.post` of the
enriched payload; on failure the catch logs and skips the gap check. -/
def runPrimary (cfg : Cfg) (dayFiles : List (Option (List Entry))) (primaryOk : Bool)
    (resendOk : Nat → Bool) (lst0 : Option Int) (p : Payload) : EpisodeResult :=
  if primaryOk then
    match lst0 with
    | some lastT =>
      let diff : ℚ := ((p.sensing_time - lastT : Int) : ℚ)
      let threshold : ℚ := (1.5 : ℚ) * (cfg.sampleRate : ℚ)
      if diff > threshold then
        let cands := collectUnsent dayFiles lastT p.sensing_time
        let r := deliverLoop resendOk 0 (some lastT) cands
        { primaryFailureLogged := false
          backfillStarted := true
          attempted := r.2
          lastAfterEpisode := r.1 }
      else
        { primaryFailureLogged := false, backfillStarted := false
          attempted := [], lastAfterEpisode := lst0 }
    | none =>
      { primaryFailureLogged := false, backfillStarted := false
        attempted := [], lastAfterEpisode := lst0 }
  else
    { primaryFailureLogged := true, backfillStarted := false
      attempted := [], lastAfterEpisode := lst0 }

/-- Final state of one `sendDataToTcpServer` call. -/
structure PipeResult where
  primaryFailureLogged : Bool
  backfillStarted : Bool
  attempted : List Entry
  lastAfterEpisode : Option Int
  lastSuccessTime : Option Int
  secondaryRecords : List String
deriving Repr, DecidableEq

/-- `sendDataToTcpServer` (lines 185-263): the try/catch block, then the
unconditional `lastSuccessTime = payload.sensing_time` of line 244, then the
backup TCP block guarded by `BACKUP_TCP_TEST === true` (line 247). -/
def sendDataToTcpServer (cfg : Cfg) (dayFiles : List (Option (List Entry)))
    (primaryOk : Bool) (resendOk : Nat → Bool) (lst0 : Option Int) (p : Payload) :
    PipeResult :=
  let e := runPrimary cfg dayFiles primaryOk resendOk lst0 p
  { primaryFailureLogged := e.primaryFailureLogged
    backfillStarted := e.backfillStarted
    attempted := e.attempted
    lastAfterEpisode := e.lastAfterEpisode
    lastSuccessTime := some p.sensing_time
    secondaryRecords :=
      if jsStrictEq (JSVal.str cfg.backupTcpTest) (JSVal.bool true) then
        [backupRecord cfg p]
      else [] }

/-! ### CRC algebra: GF(2)-linearity of the shift rounds -/

theorem xor_rotate (a b c : Nat) : a ^^^ b ^^^ c = a ^^^ c ^^^ b := by
  rw [Nat.xor_assoc, Nat.xor_comm b c, ← Nat.xor_assoc]

theorem xor_xor_cancel (a b c : Nat) : (a ^^^ c) ^^^ (b ^^^ c) = a ^^^ b := by
  rw [Nat.xor_assoc a c (b ^^^ c), Nat.xor_comm b c, ← Nat.xor_assoc c c b,
    Nat.xor_self, Nat.zero_xor]

theorem crcRound_xor (x y : Nat) : crcRound (x ^^^ y) = crcRound x ^^^ crcRound y := by
  have hiff : ((x ^^^ y) % 2 = 1) ↔ ¬((x % 2 = 1) ↔ (y % 2 = 1)) := Nat.xor_mod_two_eq_one
  unfold crcRound
  rcases Nat.mod_two_eq_zero_or_one x with hx | hx <;>
    rcases Nat.mod_two_eq_zero_or_one y with hy | hy
  · have hxy : ¬(x ^^^ y) % 2 = 1 := by rw [hiff]; simp [hx, hy]
    rw [if_neg hxy, if_neg (by omega : ¬x % 2 = 1), if_neg (by omega : ¬y % 2 = 1),
      Nat.xor_div_two]
  · have hxy : (x ^^^ y) % 2 = 1 := by rw [hiff]; simp [hx, hy]
    rw [if_pos hxy, if_neg (by omega : ¬x % 2 = 1), if_pos hy, Nat.xor_div_two,
      Nat.xor_assoc]
  · have hxy : (x ^^^ y) % 2 = 1 := by rw [hiff]; simp [hx, hy]
    rw [if_pos hxy, if_pos hx, if_neg (by omega : ¬y % 2 = 1), Nat.xor_div_two]
    exact xor_rotate _ _ _
  · have hxy : ¬(x ^^^ y) % 2 = 1 := by rw [hiff]; simp [hx, hy]
    rw [if_neg hxy, if_pos hx, if_pos hy, Nat.xor_div_two, xor_xor_cancel]

theorem crcRound_iterate_xor (n x y : Nat) :
    crcRound^[n] (x ^^^ y) = crcRound^[n] x ^^^ crcRound^[n] y := by
  induction n generalizing x y with
  | zero => simp
  | succ n ih => simp only [Function.iterate_succ_apply, crcRound_xor, ih]

theorem crcByte_xor (s d b : Nat) : crcByte (s ^^^ d) b = crcByte s b ^^^ crcRound^[8] d := by
  unfold crcByte
  rw [xor_rotate, crcRound_iterate_xor]

theorem crcByte_xor_byte (s c d : Nat) :
    crcByte s (c ^^^ d) = crcByte s c ^^^ crcRound^[8] d := by
  unfold crcByte
  rw [← Nat.xor_assoc, crcRound_iterate_xor]

theorem foldl_crcByte_xor (l : List Nat) :
    ∀ s d, l.foldl crcByte (s ^^^ d) = l.foldl crcByte s ^^^ crcRound^[8 * l.length] d := by
  induction l with
  | nil => simp
  | cons b l ih =>
    intro s d
    simp only [List.foldl_cons, List.length_cons]
    rw [crcByte_xor, ih (crcByte s b) (crcRound^[8] d), ← Function.iterate_add_apply]
    have h8 : 8 * l.length + 8 = 8 * (l.length + 1) := by ring
    rw [h8]

theorem crc16Modbus_flip (pre : List Nat) (c d : Nat) (suf : List Nat) :
    crc16Modbus (pre ++ (c ^^^ d) :: suf) =
      crc16Modbus (pre ++ c :: suf) ^^^ crcRound^[8 * (suf.length + 1)] d := by
  unfold crc16Modbus
  rw [List.foldl_append, List.foldl_append]
  simp only [List.foldl_cons]
  rw [crcByte_xor_byte, foldl_crcByte_xor, ← Function.iterate_add_apply]
  have h8 : 8 * suf.length + 8 = 8 * (suf.length + 1) := by ring
  rw [h8]

theorem crcRound_bound (x : Nat) (h : x < 2 ^ 16) : crcRound x < 2 ^ 16 := by
  unfold crcRound
  split
  · exact Nat.xor_lt_two_pow (by omega) (by norm_num)
  · omega

theorem crcRound_ne_zero (x : Nat) (h : x < 2 ^ 16) (hx : x ≠ 0) : crcRound x ≠ 0 := by
  unfold crcRound
  split
  · intro h0
    have h2 := Nat.xor_eq_zero.mp h0
    omega
  · intro h0
    omega

theorem crcRound_iterate_ne_zero (n x : Nat) (h : x < 2 ^ 16) (hx : x ≠ 0) :
    crcRound^[n] x ≠ 0 ∧ crcRound^[n] x < 2 ^ 16 := by
  induction n generalizing x with
  | zero => exact ⟨hx, h⟩
  | succ n ih =>
    rw [Function.iterate_succ_apply]
    exact ih (crcRound x) (crcRound_bound x h) (crcRound_ne_zero x h hx)

theorem crcRound_iterate_bound (n x : Nat) (h : x < 2 ^ 16) : crcRound^[n] x < 2 ^ 16 := by
  induction n generalizing x with
  | zero => exact h
  | succ n ih =>
    rw [Function.iterate_succ_apply]
    exact ih (crcRound x) (crcRound_bound x h)

theorem foldl_crcByte_bound (l : List Nat) :
    ∀ s, s < 2 ^ 16 → (∀ b ∈ l, b < 256) → l.foldl crcByte s < 2 ^ 16 := by
  induction l with
  | nil => intro s hs _; simpa using hs
  | cons b l ih =>
    intro s hs hb
    simp only [List.foldl_cons]
    refine ih (crcByte s b) ?_ fun x hx => hb x (List.mem_cons_of_mem b hx)
    unfold crcByte
    refine crcRound_iterate_bound 8 _ (Nat.xor_lt_two_pow hs ?_)
    have := hb b (List.mem_cons_self b l)
    omega

theorem crc16Modbus_lt (l : List Nat) (hb : ∀ b ∈ l, b < 256) : crc16Modbus l < 2 ^ 16 :=
  foldl_crcByte_bound l 0xFFFF (by norm_num) hb

/-! ### Unfolding lemmas for the decoder loop -/

theorem processBuffer_short (ctx : Ctx) (t : Int) (buf : List Nat) (h : buf.length < 17) :
    processBuffer ctx t buf = ([], buf) := by
  rw [processBuffer.eq_def, dif_neg (by omega)]

theorem processBuffer_frame_ok (ctx : Ctx) (t : Int) (buf : List Nat) (h17 : buf.length = 17)
    (hm : buf.take 3 = MAGIC) (hc : crcOk buf = true) :
    processBuffer ctx t buf =
      ([Ev.send (mkPayload ctx t buf), Ev.save (LogRec.reading (mkPayload ctx t buf))], []) := by
  have hd : buf.drop 17 = [] := by rw [← h17]; exact List.drop_length buf
  have hnil : processBuffer ctx t ([] : List Nat) = ([], []) :=
    processBuffer_short ctx t [] (by simp)
  rw [processBuffer.eq_def, dif_pos (by omega), if_pos hm, if_pos hc]
  simp only [hd, hnil]

theorem processBuffer_frame_bad (ctx : Ctx) (t : Int) (buf : List Nat) (h17 : buf.length = 17)
    (hm : buf.take 3 = MAGIC) (hc : crcOk buf = false) :
    processBuffer ctx t buf = ([Ev.save (LogRec.err t "CRC validation failed")], []) := by
  have hd : buf.drop 17 = [] := by rw [← h17]; exact List.drop_length buf
  have hnil : processBuffer ctx t ([] : List Nat) = ([], []) :=
    processBuffer_short ctx t [] (by simp)
  rw [processBuffer.eq_def, dif_pos (by omega), if_pos hm, if_neg (by simp [hc])]
  simp only [hd, hnil]

theorem processBuffer_skip (ctx : Ctx) (t : Int) (buf : List Nat) (k : Nat)
    (h17 : 17 ≤ buf.length) (hm : ¬buf.take 3 = MAGIC)
    (hidx : jsIndexOf buf 0x50 1 = some k) :
    processBuffer ctx t buf = processBuffer ctx t (buf.drop k) := by
  rw [processBuffer.eq_def, dif_pos h17, if_neg hm]
  split
  · rename_i k2 hk2
    rw [hidx] at hk2
    injection hk2 with h
    rw [h]
  · rename_i hnone
    rw [hidx] at hnone
    cases hnone

theorem processBuffer_clear (ctx : Ctx) (t : Int) (buf : List Nat)
    (h17 : 17 ≤ buf.length) (hm : ¬buf.take 3 = MAGIC)
    (hidx : jsIndexOf buf 0x50 1 = none) :
    processBuffer ctx t buf = ([Ev.save (LogRec.err t "No valid frame found")], []) := by
  rw [processBuffer.eq_def, dif_pos h17, if_neg hm]
  split
  · rename_i k2 hk2
    rw [hidx] at hk2
    cases hk2
  · rfl

theorem sentPayloads_nil : sentPayloads [] = [] := rfl

theorem sentPayloads_send (p : Payload) (evs : List Ev) :
    sentPayloads (Ev.send p :: evs) = p :: sentPayloads evs := rfl

theorem sentPayloads_save (r : LogRec) (evs : List Ev) :
    sentPayloads (Ev.save r :: evs) = sentPayloads evs := rfl

theorem savedReadings_nil : savedReadings [] = [] := rfl

theorem savedReadings_send (p : Payload) (evs : List Ev) :
    savedReadings (Ev.send p :: evs) = savedReadings evs := rfl

theorem savedReadings_save_reading (p : Payload) (evs : List Ev) :
    savedReadings (Ev.save (LogRec.reading p) :: evs) = p :: savedReadings evs := rfl

theorem savedReadings_save_err (ts : Int) (m : String) (evs : List Ev) :
    savedReadings (Ev.save (LogRec.err ts m) :: evs) = savedReadings evs := rfl

theorem savedErrors_save_err (ts : Int) (m : String) (evs : List Ev) :
    savedErrors (Ev.save (LogRec.err ts m) :: evs) = (ts, m) :: savedErrors evs := rfl

/-! ### Claims -/

/-- C1: the spec (and the code's own comment at line 242) says a failed primary
delivery leaves `lastSuccessTime` untouched, but line 244 runs unconditionally
after the catch block.  Evidence at the failing input: with
`lastSuccessTime = some 1000` and a reading at 5000 ms whose primary delivery
fails, the code logs the failure, starts no backfill and attempts no resend,
yet ends with `lastSuccessTime = some 5000`, not `some 1000`. -/
theorem c1_failed_delivery_still_updates_lastSuccessTime :
    (sendDataToTcpServer { device_id := "tilt-1", sampleRate := 1000, backupTcpTest := "false" }
        [] false (fun _ => true) (some 1000)
        { sensing_time := 5000, ang_x := "0.100", ang_y := "0.200", ang_z := "0.300",
          device_id := "tilt-1", cpu_temperture := none, cpu_voltage := none,
          rssi := none, memUsage := none, diskUsage := none }) =
      { primaryFailureLogged := true, backfillStarted := false, attempted := [],
        lastAfterEpisode := some 1000, lastSuccessTime := some 5000,
        secondaryRecords := [] } ∧ some (5000 : Int) ≠ some (1000 : Int) := by
  exact ⟨rfl, by decide⟩

/-- C5: the secondary sink is dead code.  `BACKUP_TCP_TEST` comes from
`process.env`, so it is a string, and line 247 compares it with the boolean
`true` using strict equality, which is false for every string.  Hence no
reading ever produces a secondary delivery, whatever the configuration
string is. -/
theorem c5_secondary_sink_never_sends (dev : String) (rate : Int) (s : String)
    (dayFiles : List (Option (List Entry))) (primaryOk : Bool) (resendOk : Nat → Bool)
    (lst0 : Option Int) (p : Payload) :
    (sendDataToTcpServer { device_id := dev, sampleRate := rate, backupTcpTest := s }
        dayFiles primaryOk resendOk lst0 p).secondaryRecords = [] := by
  simp [sendDataToTcpServer, jsStrictEq]

/-- C6: on a successful primary delivery with `lastSuccessTime` set, a backfill
episode starts exactly when `reading.sensing_time - lastSuccessTime` is
strictly greater than `1.5 * SAMPLE_RATE` milliseconds (line 199 uses `>`);
equivalently, over the integer timestamps, when `2 * diff > 3 * P`.  In
particular `diff = 1.5 * P` starts no episode and `diff = 1.5 * P + 1` does. -/
theorem c6_gap_threshold_strict (cfg : Cfg) (dayFiles : List (Option (List Entry)))
    (resendOk : Nat → Bool) (lastT : Int) (p : Payload) :
    (runPrimary cfg dayFiles true resendOk (some lastT) p).backfillStarted =
      decide (2 * (p.sensing_time - lastT) > 3 * cfg.sampleRate) := by
  have hiff : (((p.sensing_time - lastT : Int) : ℚ) > (1.5 : ℚ) * (cfg.sampleRate : ℚ)) ↔
      (2 * (p.sensing_time - lastT) > 3 * cfg.sampleRate) := by
    constructor
    · intro h
      have h2 : ((2 * (p.sensing_time - lastT) : Int) : ℚ) >
          ((3 * cfg.sampleRate : Int) : ℚ) := by
        push_cast
        push_cast at h
        linarith
      exact_mod_cast h2
    · intro h
      have h2 : ((2 * (p.sensing_time - lastT) : Int) : ℚ) >
          ((3 * cfg.sampleRate : Int) : ℚ) := by exact_mod_cast h
      push_cast at h2
      push_cast
      linarith
  simp only [runPrimary]
  rw [if_pos trivial]
  split
  · rename_i h
    rw [decide_eq_true (hiff.mp h)]
  · rename_i h
    have hq : ¬(2 * (p.sensing_time - lastT) > 3 * cfg.sampleRate) := fun hq => h (hiff.mpr hq)
    rw [decide_eq_false hq]

/-- C7: backfill candidates are the per-day filtered lists concatenated in day
order (each file's append order preserved) and then reversed; for a 2-day
split day1 = [e1, e2], day2 = [e3, e4] with all four entries inside the gap
window and carrying the three angle fields, the episode's delivery order is
e4, e3, e2, e1. -/
theorem c7_backfill_candidate_order (lastT curT : Int) (e1 e2 e3 e4 : Entry)
    (hw : ∀ e ∈ [e1, e2, e3, e4], lastT < e.sensing_time ∧ e.sensing_time ≤ curT ∧
      e.ang_x.isSome = true ∧ e.ang_y.isSome = true ∧ e.ang_z.isSome = true)
    (ho : e1.sensing_time < e2.sensing_time ∧ e2.sensing_time < e3.sensing_time ∧
      e3.sensing_time < e4.sensing_time) :
    collectUnsent [some [e1, e2], some [e3, e4]] lastT curT = [e4, e3, e2, e1] ∧
    (deliverLoop (fun _ => true) 0 (some lastT)
        (collectUnsent [some [e1, e2], some [e3, e4]] lastT curT)).2 = [e4, e3, e2, e1] := by
  have hok : ∀ e ∈ [e1, e2, e3, e4], candidateOk lastT curT e = true := by
    intro e he
    obtain ⟨h1, h2, h3, h4, h5⟩ := hw e he
    simp [candidateOk, h1, h2, h3, h4, h5]
  have k1 := hok e1 (by simp)
  have k2 := hok e2 (by simp)
  have k3 := hok e3 (by simp)
  have k4 := hok e4 (by simp)
  have hc : collectUnsent [some [e1, e2], some [e3, e4]] lastT curT = [e4, e3, e2, e1] := by
    simp [collectUnsent, List.filter_cons, k1, k2, k3, k4]
  refine ⟨hc, ?_⟩
  rw [hc]
  simp [deliverLoop]

/-- C8: in a backfill episode the candidates are attempted sequentially; each
success advances `lastSuccessTime` to that candidate's timestamp and the first
failure breaks out of the loop.  If the second attempt fails, no further
candidate is attempted and the episode leaves `lastSuccessTime` at the first
candidate's timestamp — until line 244 unconditionally overwrites it with the
current reading's `sensing_time` (step 5). -/
theorem c8_backfill_first_failure_aborts (ok : Nat → Bool) (e1 e2 : Entry) (rest : List Entry)
    (lst0 : Option Int) (cfg : Cfg) (dayFiles : List (Option (List Entry)))
    (primaryOk : Bool) (resendOk : Nat → Bool) (p : Payload)
    (h0 : ok 0 = true) (h1 : ok 1 = false) :
    deliverLoop ok 0 lst0 (e1 :: e2 :: rest) = (some e1.sensing_time, [e1, e2]) ∧
    (sendDataToTcpServer cfg dayFiles primaryOk resendOk lst0 p).lastSuccessTime =
      some p.sensing_time := by
  constructor
  · simp [deliverLoop, h0, h1]
  · simp [sendDataToTcpServer]

/-- C8 witness: a concrete episode with four candidates where the first attempt
succeeds and the second fails: only the first two are attempted and the
pre-overwrite `lastSuccessTime` is the first candidate's timestamp 10. -/
theorem c8_backfill_first_failure_aborts_witness :
    ((fun n => decide (n = 0)) 0 = true) ∧ ((fun n => decide (n = 0)) 1 = false) ∧
    deliverLoop (fun n => decide (n = 0)) 0 (some 0)
        [⟨10, some "a", some "b", some "c"⟩, ⟨20, some "a", some "b", some "c"⟩,
          ⟨30, some "a", some "b", some "c"⟩, ⟨40, some "a", some "b", some "c"⟩] =
      (some 10, [⟨10, some "a", some "b", some "c"⟩, ⟨20, some "a", some "b", some "c"⟩]) ∧
    (sendDataToTcpServer { device_id := "d", sampleRate := 1000, backupTcpTest := "t" }
        [] true (fun n => decide (n = 0)) (some 0)
        { sensing_time := 5000, ang_x := "0.000", ang_y := "0.000", ang_z := "0.000",
          device_id := "d", cpu_temperture := none, cpu_voltage := none,
          rssi := none, memUsage := none, diskUsage := none }).lastSuccessTime =
      some 5000 :=
  ⟨by decide, by decide,
    c8_backfill_first_failure_aborts (fun n => decide (n = 0))
      ⟨10, some "a", some "b", some "c"⟩ ⟨20, some "a", some "b", some "c"⟩
      [⟨30, some "a", some "b", some "c"⟩, ⟨40, some "a", some "b", some "c"⟩]
      (some 0) { device_id := "d", sampleRate := 1000, backupTcpTest := "t" }
      [] true (fun n => decide (n = 0))
      { sensing_time := 5000, ang_x := "0.000", ang_y := "0.000", ang_z := "0.000",
        device_id := "d", cpu_temperture := none, cpu_voltage := none,
        rssi := none, memUsage := none, diskUsage := none }
      (by decide) (by decide)⟩

/-- C7 witness: concrete two-day split with timestamps 10 < 20 < 30 < 40 inside
the window (0, 100]. -/
theorem c7_backfill_candidate_order_witness :
    (∀ e ∈ [(⟨10, some "a", some "b", some "c"⟩ : Entry),
        ⟨20, some "a", some "b", some "c"⟩, ⟨30, some "a", some "b", some "c"⟩,
        ⟨40, some "a", some "b", some "c"⟩],
      (0 : Int) < e.sensing_time ∧ e.sensing_time ≤ (100 : Int) ∧
        e.ang_x.isSome = true ∧ e.ang_y.isSome = true ∧ e.ang_z.isSome = true) ∧
    collectUnsent
        [some [⟨10, some "a", some "b", some "c"⟩, ⟨20, some "a", some "b", some "c"⟩],
          some [⟨30, some "a", some "b", some "c"⟩, ⟨40, some "a", some "b", some "c"⟩]]
        0 100 =
      [⟨40, some "a", some "b", some "c"⟩, ⟨30, some "a", some "b", some "c"⟩,
        ⟨20, some "a", some "b", some "c"⟩, ⟨10, some "a", some "b", some "c"⟩] :=
  ⟨by decide,
    (c7_backfill_candidate_order 0 100 ⟨10, some "a", some "b", some "c"⟩
      ⟨20, some "a", some "b", some "c"⟩ ⟨30, some "a", some "b", some "c"⟩
      ⟨40, some "a", some "b", some "c"⟩ (by decide) (by decide)).1⟩

/-- C3 (amended): for an accepted frame whose payload bytes at offsets 3..6 are
[0x64, 0x00, 0x00, 0x00], the decode `b[5] << 24 | b[6] << 16 | b[3] << 8 | b[4]`
yields the integer 0x6400 = 25600, so the emitted ang_x is "25.600" — not
"0.100" as the spec example states (that would require the bytes
[0x00, 0x64, 0x00, 0x00]). -/
theorem c3_payload_0x64_yields_25600 (ctx : Ctx) (t : Int) (buf : List Nat)
    (h17 : buf.length = 17) (hm : buf.take 3 = MAGIC) (hc : crcOk buf = true)
    (h3 : buf.getD 3 0 = 0x64) (h4 : buf.getD 4 0 = 0) (h5 : buf.getD 5 0 = 0)
    (h6 : buf.getD 6 0 = 0) :
    (sentPayloads (processBuffer ctx t buf).1).map (fun p => p.ang_x) = ["25.600"] := by
  have hax : axisValue buf 3 = 25600 := by
    unfold axisValue axisUnsigned
    rw [h5, h6, h3, h4]
    decide
  rw [processBuffer_frame_ok ctx t buf h17 hm hc, sentPayloads_send, sentPayloads_save,
    sentPayloads_nil]
  simp only [List.map_cons, List.map_nil, mkPayload, hax]
  decide

/-- C3 counterexample: the concrete accepted frame with payload bytes
[0x64, 0x00, 0x00, 0x00] at offsets 3..6 (CRC trailer 0x73 0x03) decodes to
ang_x = "25.600", not "0.100" as the claim states. -/
theorem c3_counterexample :
    (sentPayloads (processBuffer
          { device_id := "dev", cpuTemp := none, cpuVolt := none, rssi := none,
            memUsage := none, diskUsage := none } 0
          [0x50, 0x03, 0x0c, 0x64, 0, 0, 0, 0, 0, 0, 0, 0, 0, 0, 0, 0x73, 0x03]).1).map
        (fun p => p.ang_x) ≠ ["0.100"] ∧
    (sentPayloads (processBuffer
          { device_id := "dev", cpuTemp := none, cpuVolt := none, rssi := none,
            memUsage := none, diskUsage := none } 0
          [0x50, 0x03, 0x0c, 0x64, 0, 0, 0, 0, 0, 0, 0, 0, 0, 0, 0, 0x73, 0x03]).1).map
        (fun p => p.ang_x) = ["25.600"] := by
  have he := processBuffer_frame_ok
    { device_id := "dev", cpuTemp := none, cpuVolt := none, rssi := none,
      memUsage := none, diskUsage := none } 0
    [0x50, 0x03, 0x0c, 0x64, 0, 0, 0, 0, 0, 0, 0, 0, 0, 0, 0, 0x73, 0x03]
    (by decide) (by decide) (by decide)
  rw [he]
  constructor
  · rw [sentPayloads_send, sentPayloads_save, sentPayloads_nil]
    decide
  · rw [sentPayloads_send, sentPayloads_save, sentPayloads_nil]
    decide

/-- C3 witness for the amended claim: the same concrete frame, with every
hypothesis discharged by evaluation. -/
theorem c3_payload_0x64_yields_25600_witness :
    (([0x50, 0x03, 0x0c, 0x64, 0, 0, 0, 0, 0, 0, 0, 0, 0, 0, 0, 0x73, 0x03] :
        List Nat).length = 17) ∧
    (sentPayloads (processBuffer
          { device_id := "w3", cpuTemp := none, cpuVolt := none, rssi := none,
            memUsage := none, diskUsage := none } 7
          [0x50, 0x03, 0x0c, 0x64, 0, 0, 0, 0, 0, 0, 0, 0, 0, 0, 0, 0x73, 0x03]).1).map
        (fun p => p.ang_x) = ["25.600"] :=
  ⟨by decide,
    c3_payload_0x64_yields_25600
      { device_id := "w3", cpuTemp := none, cpuVolt := none, rssi := none,
        memUsage := none, diskUsage := none } 7
      [0x50, 0x03, 0x0c, 0x64, 0, 0, 0, 0, 0, 0, 0, 0, 0, 0, 0, 0x73, 0x03]
      (by decide) (by decide) (by decide) (by decide) (by decide) (by decide) (by decide)⟩

/-- C4 (amended): every Reading emitted by the decoder loop is forwarded to
`sendDataToTcpServer`, one request per reading and in generation order (the
sent payloads coincide with the reading records saved to the daily log, in
order); ErrorRecords produce no primary-sink request — they are only saved to
the daily log. -/
theorem c4_readings_sent_errors_not_sent (ctx : Ctx) (t : Int) (buf : List Nat) :
    sentPayloads (processBuffer ctx t buf).1 = savedReadings (processBuffer ctx t buf).1 := by
  induction buf using processBuffer.induct ctx t with
  | case1 x h17 hm hc ih =>
    rw [processBuffer.eq_def, dif_pos h17, if_pos hm, if_pos hc]
    simp only [sentPayloads_send, sentPayloads_save, savedReadings_send,
      savedReadings_save_reading]
    rw [ih]
  | case2 x h17 hm hc ih =>
    rw [processBuffer.eq_def, dif_pos h17, if_pos hm, if_neg hc]
    simp only [sentPayloads_save, savedReadings_save_err]
    exact ih
  | case3 x h17 hm k hidx ih =>
    rw [processBuffer_skip ctx t x k h17 hm hidx]
    exact ih
  | case4 x h17 hm hidx =>
    rw [processBuffer_clear ctx t x h17 hm hidx]
    rfl
  | case5 x h17 =>
    rw [processBuffer_short ctx t x (by omega)]
    rfl

/-- C4 counterexample: a 17-byte frame with correct magic but wrong CRC
produces one ErrorRecord output but zero primary-sink requests, refuting the
claim that the primary sink receives one request per reading/error (with body
{sensing_time, error} for errors). -/
theorem c4_counterexample :
    sentPayloads (processBuffer
        { device_id := "dev", cpuTemp := none, cpuVolt := none, rssi := none,
          memUsage := none, diskUsage := none } 0
        [0x50, 0x03, 0x0c, 0, 0, 0, 0, 0, 0, 0, 0, 0, 0, 0, 0, 0xFF, 0xFF]).1 = [] ∧
    savedErrors (processBuffer
        { device_id := "dev", cpuTemp := none, cpuVolt := none, rssi := none,
          memUsage := none, diskUsage := none } 0
        [0x50, 0x03, 0x0c, 0, 0, 0, 0, 0, 0, 0, 0, 0, 0, 0, 0, 0xFF, 0xFF]).1 =
      [(0, "CRC validation failed")] := by
  have he := processBuffer_frame_bad
    { device_id := "dev", cpuTemp := none, cpuVolt := none, rssi := none,
      memUsage := none, diskUsage := none } 0
    [0x50, 0x03, 0x0c, 0, 0, 0, 0, 0, 0, 0, 0, 0, 0, 0, 0, 0xFF, 0xFF]
    (by decide) (by decide) (by decide)
  rw [he]
  exact ⟨rfl, rfl⟩

theorem findFrom_append_of_not_mem (v : Nat) (l1 : List Nat) (hno : ∀ x ∈ l1, x ≠ v) :
    ∀ (l2 : List Nat) (i : Nat), findFrom v (l1 ++ l2) i = findFrom v l2 (i + l1.length) := by
  induction l1 with
  | nil => intro l2 i; simp
  | cons b l1 ih =>
    intro l2 i
    have hb : ¬b = v := hno b (by simp)
    simp only [List.cons_append, findFrom, if_neg hb]
    show findFrom v (l1 ++ l2) (i + 1) = _
    rw [ih (fun x hx => hno x (by simp [hx])) l2 (i + 1)]
    congr 1
    simp only [List.length_cons]
    omega

theorem findFrom_cons_self (v : Nat) (rest : List Nat) (i : Nat) :
    findFrom v (v :: rest) i = some i := by
  simp [findFrom]

/-- C9: on a header mismatch the decoder scans for the next 0x50 from offset 1.
If it occurs first at offset k, exactly k bytes are discarded and decoding
retries on the remainder — so k garbage bytes (none equal to 0x50 past
position 0) followed by a valid frame produce exactly one Reading.  If no 0x50
occurs past offset 0, the whole buffer is dropped, an ErrorRecord
"No valid frame found" is saved, and processing stops. -/
theorem c9_resync (ctx : Ctx) (t : Int) (g frame : List Nat)
    (hg1 : 1 ≤ g.length) (hmag : ¬(g ++ frame).take 3 = MAGIC)
    (hno : ∀ x ∈ g.drop 1, x ≠ 0x50)
    (hfl : frame.length = 17) (hfm : frame.take 3 = MAGIC) (hfc : crcOk frame = true) :
    jsIndexOf (g ++ frame) 0x50 1 = some g.length ∧
    processBuffer ctx t (g ++ frame) = processBuffer ctx t frame ∧
    processBuffer ctx t frame =
      ([Ev.send (mkPayload ctx t frame), Ev.save (LogRec.reading (mkPayload ctx t frame))],
        []) ∧
    (∀ buf : List Nat, 17 ≤ buf.length → ¬buf.take 3 = MAGIC →
      jsIndexOf buf 0x50 1 = none →
      processBuffer ctx t buf = ([Ev.save (LogRec.err t "No valid frame found")], [])) := by
  obtain ⟨rest, hframe⟩ : ∃ rest, frame = 0x50 :: rest := by
    rcases frame with _ | ⟨a, fr⟩
    · simp [MAGIC] at hfm
    · refine ⟨fr, ?_⟩
      rw [List.take_succ_cons, show MAGIC = 0x50 :: [0x03, 0x0c] from rfl] at hfm
      injection hfm with h1 _
      rw [h1]
  have hidx : jsIndexOf (g ++ frame) 0x50 1 = some g.length := by
    unfold jsIndexOf
    rw [List.drop_append_of_le_length hg1,
      findFrom_append_of_not_mem 0x50 (g.drop 1) hno frame 0, hframe, findFrom_cons_self]
    show some (1 + (0 + (g.drop 1).length)) = some g.length
    congr 1
    simp only [List.length_drop]
    omega
  have h17g : 17 ≤ (g ++ frame).length := by
    simp only [List.length_append]
    omega
  refine ⟨hidx, ?_, processBuffer_frame_ok ctx t frame hfl hfm hfc, ?_⟩
  · rw [processBuffer_skip ctx t (g ++ frame) g.length h17g hmag hidx, List.drop_left]
  · intro buf hb17 hbm hbidx
    exact processBuffer_clear ctx t buf hb17 hbm hbidx

/-- C9 witness: two garbage bytes 0x01 0x02 followed by a valid all-zero-payload
frame (CRC trailer 0x02 0x4c): the first 0x50 past offset 0 sits at offset 2,
exactly 2 bytes are discarded, and the remainder decodes to one Reading. -/
theorem c9_resync_witness :
    (1 ≤ ([0x01, 0x02] : List Nat).length) ∧
    (¬(([0x01, 0x02] : List Nat) ++
        [0x50, 0x03, 0x0c, 0, 0, 0, 0, 0, 0, 0, 0, 0, 0, 0, 0, 0x02, 0x4c]).take 3 = MAGIC) ∧
    (jsIndexOf (([0x01, 0x02] : List Nat) ++
        [0x50, 0x03, 0x0c, 0, 0, 0, 0, 0, 0, 0, 0, 0, 0, 0, 0, 0x02, 0x4c]) 0x50 1 =
      some 2) ∧
    processBuffer
        { device_id := "w9", cpuTemp := none, cpuVolt := none, rssi := none,
          memUsage := none, diskUsage := none } 3
        (([0x01, 0x02] : List Nat) ++
          [0x50, 0x03, 0x0c, 0, 0, 0, 0, 0, 0, 0, 0, 0, 0, 0, 0, 0x02, 0x4c]) =
      processBuffer
        { device_id := "w9", cpuTemp := none, cpuVolt := none, rssi := none,
          memUsage := none, diskUsage := none } 3
        [0x50, 0x03, 0x0c, 0, 0, 0, 0, 0, 0, 0, 0, 0, 0, 0, 0, 0x02, 0x4c] ∧
    processBuffer
        { device_id := "w9", cpuTemp := none, cpuVolt := none, rssi := none,
          memUsage := none, diskUsage := none } 3
        [0x50, 0x03, 0x0c, 0, 0, 0, 0, 0, 0, 0, 0, 0, 0, 0, 0, 0x02, 0x4c] =
      ([Ev.send (mkPayload
            { device_id := "w9", cpuTemp := none, cpuVolt := none, rssi := none,
              memUsage := none, diskUsage := none } 3
            [0x50, 0x03, 0x0c, 0, 0, 0, 0, 0, 0, 0, 0, 0, 0, 0, 0, 0x02, 0x4c]),
          Ev.save (LogRec.reading (mkPayload
            { device_id := "w9", cpuTemp := none, cpuVolt := none, rssi := none,
              memUsage := none, diskUsage := none } 3
            [0x50, 0x03, 0x0c, 0, 0, 0, 0, 0, 0, 0, 0, 0, 0, 0, 0, 0x02, 0x4c]))], []) := by
  have h := c9_resync
    { device_id := "w9", cpuTemp := none, cpuVolt := none, rssi := none,
      memUsage := none, diskUsage := none } 3 [0x01, 0x02]
    [0x50, 0x03, 0x0c, 0, 0, 0, 0, 0, 0, 0, 0, 0, 0, 0, 0, 0x02, 0x4c]
    (by decide) (by decide) (by decide) (by decide) (by decide) (by decide)
  exact ⟨by decide, by decide, h.1, h.2.1, h.2.2.1⟩

/-- C10: the reassembled 32-bit axis value is interpreted as a signed
two's-complement integer (the JavaScript `<<`/`|` operators work on Int32).
For an accepted frame whose byte at buffer index 5 — the most significant byte
of the ang_x decode — is at least 0x80, the decoded value is
`unsigned - 2^32 < 0`, the emitted angle `value / 1000` is negative, and the
payload's ang_x field is the 3-decimal rendering of that negative value. -/
theorem c10_msb_makes_angle_negative (ctx : Ctx) (t : Int) (buf : List Nat)
    (h17 : buf.length = 17) (hm : buf.take 3 = MAGIC) (hc : crcOk buf = true)
    (hb : ∀ b ∈ buf, b < 256) (h5 : 0x80 ≤ buf.getD 5 0) :
    axisValue buf 3 = (axisUnsigned buf 3 : Int) - 2 ^ 32 ∧
    axisValue buf 3 < 0 ∧
    ((axisValue buf 3 : ℚ) / 1000 = ((axisUnsigned buf 3 : ℚ) - 2 ^ 32) / 1000) ∧
    ((axisValue buf 3 : ℚ) / 1000 < 0) ∧
    (sentPayloads (processBuffer ctx t buf).1).map (fun p => p.ang_x) =
      [formatFixed3 (axisValue buf 3)] := by
  have hgetlt : ∀ n, n < buf.length → buf.getD n 0 < 256 := by
    intro n hn
    rw [List.getD_eq_getElem buf 0 hn]
    exact hb _ (List.getElem_mem hn)
  have hb5 : buf.getD 5 0 < 256 := hgetlt 5 (by omega)
  have hb6 : buf.getD 6 0 < 256 := hgetlt 6 (by omega)
  have hb3 : buf.getD 3 0 < 256 := hgetlt 3 (by omega)
  have hb4 : buf.getD 4 0 < 256 := hgetlt 4 (by omega)
  have hu_lo : 2 ^ 31 ≤ axisUnsigned buf 3 := by
    have h1 : 2 ^ 31 ≤ buf.getD 5 0 <<< 24 := by
      rw [Nat.shiftLeft_eq]
      calc (2 : Nat) ^ 31 = 128 * 2 ^ 24 := by norm_num
        _ ≤ buf.getD 5 0 * 2 ^ 24 := Nat.mul_le_mul_right _ h5
    refine le_trans h1 (Nat.le_of_testBit fun i hi => ?_)
    unfold axisUnsigned
    simp only [Nat.testBit_or, hi, Bool.true_or]
  have hshift : ∀ b k, b < 256 → k ≤ 24 → b <<< k < 2 ^ 32 := by
    intro b k hblt hk
    rw [Nat.shiftLeft_eq]
    have hp : 0 < 2 ^ k := pow_pos (by norm_num) k
    have hlt1 : b * 2 ^ k < 256 * 2 ^ k := (Nat.mul_lt_mul_right hp).mpr hblt
    have hle2 : (256 : Nat) * 2 ^ k ≤ 256 * 2 ^ 24 :=
      Nat.mul_le_mul_left 256 (Nat.pow_le_pow_right (by norm_num) hk)
    have hfin : (256 : Nat) * 2 ^ 24 ≤ 2 ^ 32 := by norm_num
    omega
  have hu_hi : axisUnsigned buf 3 < 2 ^ 32 := by
    have e5 : buf.getD (3 + 2) 0 = buf.getD 5 0 := by norm_num
    have e6 : buf.getD (3 + 3) 0 = buf.getD 6 0 := by norm_num
    have e4 : buf.getD (3 + 1) 0 = buf.getD 4 0 := by norm_num
    unfold axisUnsigned
    rw [e5, e6, e4]
    exact Nat.or_lt_two_pow
      (Nat.or_lt_two_pow
        (Nat.or_lt_two_pow (hshift _ 24 hb5 (by omega)) (hshift _ 16 hb6 (by omega)))
        (hshift _ 8 hb3 (by omega)))
      (by omega)
  have h1 : axisValue buf 3 = (axisUnsigned buf 3 : Int) - 2 ^ 32 := by
    unfold axisValue toInt32
    rw [Nat.mod_eq_of_lt hu_hi, if_neg (by omega)]
  have h2 : axisValue buf 3 < 0 := by
    rw [h1]
    have hcast : (axisUnsigned buf 3 : Int) < 2 ^ 32 := by exact_mod_cast hu_hi
    omega
  refine ⟨h1, h2, ?_, ?_, ?_⟩
  · rw [h1]
    push_cast
    ring
  · apply div_neg_of_neg_of_pos
    · exact_mod_cast h2
    · norm_num
  · rw [processBuffer_frame_ok ctx t buf h17 hm hc, sentPayloads_send, sentPayloads_save,
      sentPayloads_nil]
    simp [mkPayload]

/-- C10 witness: a concrete accepted frame with byte 0x80 at buffer index 5
(CRC trailer 0x05 0xa4): the decode is -2147483648 and ang_x is
"-2147483.648". -/
theorem c10_msb_makes_angle_negative_witness :
    ((0x80 : Nat) ≤ ([0x50, 0x03, 0x0c, 0, 0, 0x80, 0, 0, 0, 0, 0, 0, 0, 0, 0, 0x05, 0xA4] :
        List Nat).getD 5 0) ∧
    axisValue [0x50, 0x03, 0x0c, 0, 0, 0x80, 0, 0, 0, 0, 0, 0, 0, 0, 0, 0x05, 0xA4] 3 =
      (axisUnsigned [0x50, 0x03, 0x0c, 0, 0, 0x80, 0, 0, 0, 0, 0, 0, 0, 0, 0, 0x05, 0xA4] 3 :
        Int) - 2 ^ 32 ∧
    axisValue [0x50, 0x03, 0x0c, 0, 0, 0x80, 0, 0, 0, 0, 0, 0, 0, 0, 0, 0x05, 0xA4] 3 < 0 :=
  have h := c10_msb_makes_angle_negative
    { device_id := "w10", cpuTemp := none, cpuVolt := none, rssi := none,
      memUsage := none, diskUsage := none } 11
    [0x50, 0x03, 0x0c, 0, 0, 0x80, 0, 0, 0, 0, 0, 0, 0, 0, 0, 0x05, 0xA4]
    (by decide) (by decide) (by decide) (by decide) (by decide)
  ⟨by decide, h.1, h.2.1⟩

/-- C2: a buffered 17-byte candidate with the magic header is decoded to a
Reading if and only if CRC16/Modbus (poly 0xA001, init 0xFFFF) over bytes
[0,15) equals bytes [15,17) read little-endian; and flipping any single bit of
a payload byte (offsets 3..14) of an accepted frame changes the CRC residue,
so the flipped frame is rejected and produces no Reading. -/
theorem c2_crc_acceptance (ctx : Ctx) (t : Int) (buf : List Nat) (h17 : buf.length = 17)
    (hm : buf.take 3 = MAGIC) (hb : ∀ b ∈ buf, b < 256) :
    (sentPayloads (processBuffer ctx t buf).1 ≠ [] ↔
      crc16Modbus (buf.take 15) = buf.getD 15 0 + 256 * buf.getD 16 0) ∧
    (∀ pre c suf i, buf = pre ++ c :: suf → 3 ≤ pre.length → pre.length < 15 → i < 8 →
      crcOk buf = true →
      sentPayloads (processBuffer ctx t (pre ++ (c ^^^ 2 ^ i) :: suf)).1 = []) := by
  have hcrc_lt : crc16Modbus (buf.take 15) < 2 ^ 16 :=
    crc16Modbus_lt _ fun b hbm => hb b (List.mem_of_mem_take hbm)
  have hble : ∀ n, n < buf.length → buf.getD n 0 < 256 := by
    intro n hn
    rw [List.getD_eq_getElem buf 0 hn]
    exact hb _ (List.getElem_mem hn)
  have hb15 : buf.getD 15 0 < 256 := hble 15 (by omega)
  have hb16 : buf.getD 16 0 < 256 := hble 16 (by omega)
  have hiff_crc : crcOk buf = true ↔
      crc16Modbus (buf.take 15) = buf.getD 15 0 + 256 * buf.getD 16 0 := by
    unfold crcOk crcBytesLE
    constructor
    · intro h
      have hlist := eq_of_beq h
      simp only [List.cons.injEq, and_true] at hlist
      omega
    · intro h
      apply beq_iff_eq.mpr
      simp only [List.cons.injEq, and_true]
      exact ⟨by omega, by omega⟩
  constructor
  · by_cases hc : crcOk buf = true
    · rw [processBuffer_frame_ok ctx t buf h17 hm hc, sentPayloads_send, sentPayloads_save,
        sentPayloads_nil]
      exact ⟨fun _ => hiff_crc.mp hc, fun _ => by simp⟩
    · have hcf : crcOk buf = false := by revert hc; cases crcOk buf <;> simp
      rw [processBuffer_frame_bad ctx t buf h17 hm hcf, sentPayloads_save, sentPayloads_nil]
      constructor
      · intro hne
        exact absurd rfl hne
      · intro heq
        exact absurd (hiff_crc.mpr heq) hc
  · intro pre c suf i hbuf h3 h15lt hi hcrc
    subst hbuf
    have hlen : pre.length + suf.length + 1 = 17 := by
      simp only [List.length_append, List.length_cons] at h17
      omega
    have hd_pos : (2 ^ i : Nat) ≠ 0 := Nat.pos_iff_ne_zero.mp (pow_pos (by norm_num) i)
    have hd_lt : (2 ^ i : Nat) < 2 ^ 16 := Nat.pow_lt_pow_right (by norm_num) (by omega)
    have htake : ∀ x : Nat, (pre ++ x :: suf).take 15 = pre ++ x :: suf.take (14 - pre.length) := by
      intro x
      rw [List.take_append_eq_append_take, List.take_of_length_le (by omega)]
      congr 1
      have h15e : 15 - pre.length = (14 - pre.length) + 1 := by omega
      rw [h15e, List.take_succ_cons]
    have hflip : crc16Modbus ((pre ++ (c ^^^ 2 ^ i) :: suf).take 15) =
        crc16Modbus ((pre ++ c :: suf).take 15) ^^^
          crcRound^[8 * ((suf.take (14 - pre.length)).length + 1)] (2 ^ i) := by
      rw [htake (c ^^^ 2 ^ i), htake c, crc16Modbus_flip]
    have he := crcRound_iterate_ne_zero (8 * ((suf.take (14 - pre.length)).length + 1))
      (2 ^ i) hd_lt hd_pos
    have hcl : crc16Modbus ((pre ++ c :: suf).take 15) < 2 ^ 16 :=
      crc16Modbus_lt _ fun b2 hb2 => hb b2 (List.mem_of_mem_take hb2)
    have hcl2 : crc16Modbus ((pre ++ (c ^^^ 2 ^ i) :: suf).take 15) < 2 ^ 16 := by
      rw [hflip]
      exact Nat.xor_lt_two_pow hcl he.2
    have hneq : crc16Modbus ((pre ++ (c ^^^ 2 ^ i) :: suf).take 15) ≠
        crc16Modbus ((pre ++ c :: suf).take 15) := by
      rw [hflip]
      intro h0
      refine he.1 ?_
      calc crcRound^[8 * ((suf.take (14 - pre.length)).length + 1)] (2 ^ i)
          = crc16Modbus ((pre ++ c :: suf).take 15) ^^^
              (crc16Modbus ((pre ++ c :: suf).take 15) ^^^
                crcRound^[8 * ((suf.take (14 - pre.length)).length + 1)] (2 ^ i)) := by
            rw [← Nat.xor_assoc, Nat.xor_self, Nat.zero_xor]
        _ = crc16Modbus ((pre ++ c :: suf).take 15) ^^^
              crc16Modbus ((pre ++ c :: suf).take 15) := by rw [h0]
        _ = 0 := Nat.xor_self _
    have hg : ∀ (x n : Nat), pre.length < n →
        (pre ++ x :: suf).getD n 0 = suf.getD (n - pre.length - 1) 0 := by
      intro x n hn
      rw [List.getD_append_right _ _ _ _ (by omega)]
      have hsm : n - pre.length = (n - pre.length - 1) + 1 := by omega
      conv_lhs => rw [hsm]
      rw [List.getD_cons_succ]
    have hcf : crcOk (pre ++ (c ^^^ 2 ^ i) :: suf) = false := by
      by_contra hcc
      have hcc2 : crcOk (pre ++ (c ^^^ 2 ^ i) :: suf) = true := by
        revert hcc; cases crcOk (pre ++ (c ^^^ 2 ^ i) :: suf) <;> simp
      have hc1 := hcrc
      unfold crcOk crcBytesLE at hc1 hcc2
      have e1 := eq_of_beq hc1
      have e2 := eq_of_beq hcc2
      simp only [List.cons.injEq, and_true] at e1 e2
      rw [hg c 15 (by omega), hg c 16 (by omega)] at e1
      rw [hg (c ^^^ 2 ^ i) 15 (by omega), hg (c ^^^ 2 ^ i) 16 (by omega)] at e2
      apply hneq
      omega
    have hlen2 : (pre ++ (c ^^^ 2 ^ i) :: suf).length = 17 := by
      simp only [List.length_append, List.length_cons]
      omega
    have htk3 : ∀ x : Nat, (pre ++ x :: suf).take 3 = pre.take 3 := by
      intro x
      rw [List.take_append_eq_append_take]
      have h30 : 3 - pre.length = 0 := by omega
      rw [h30]
      simp
    have hm2 : (pre ++ (c ^^^ 2 ^ i) :: suf).take 3 = MAGIC := by
      rw [htk3 (c ^^^ 2 ^ i), ← htk3 c]
      exact hm
    rw [processBuffer_frame_bad ctx t _ hlen2 hm2 hcf, sentPayloads_save, sentPayloads_nil]

/-- C2 witness: the concrete valid all-zero-payload frame (CRC trailer
0x02 0x4c) satisfies the acceptance equivalence, and flipping bit 0 of payload
byte 3 yields a frame that is rejected. -/
theorem c2_crc_acceptance_witness :
    (([0x50, 0x03, 0x0c, 0, 0, 0, 0, 0, 0, 0, 0, 0, 0, 0, 0, 0x02, 0x4c] :
        List Nat).length = 17) ∧
    (([0x50, 0x03, 0x0c, 0, 0, 0, 0, 0, 0, 0, 0, 0, 0, 0, 0, 0x02, 0x4c] :
        List Nat).take 3 = MAGIC) ∧
    (∀ b ∈ ([0x50, 0x03, 0x0c, 0, 0, 0, 0, 0, 0, 0, 0, 0, 0, 0, 0, 0x02, 0x4c] :
        List Nat), b < 256) ∧
    ((sentPayloads (processBuffer
          { device_id := "w2", cpuTemp := none, cpuVolt := none, rssi := none,
            memUsage := none, diskUsage := none } 5
          [0x50, 0x03, 0x0c, 0, 0, 0, 0, 0, 0, 0, 0, 0, 0, 0, 0, 0x02, 0x4c]).1 ≠ [] ↔
      crc16Modbus (([0x50, 0x03, 0x0c, 0, 0, 0, 0, 0, 0, 0, 0, 0, 0, 0, 0, 0x02, 0x4c] :
          List Nat).take 15) =
        ([0x50, 0x03, 0x0c, 0, 0, 0, 0, 0, 0, 0, 0, 0, 0, 0, 0, 0x02, 0x4c] :
          List Nat).getD 15 0 +
          256 * ([0x50, 0x03, 0x0c, 0, 0, 0, 0, 0, 0, 0, 0, 0, 0, 0, 0, 0x02, 0x4c] :
            List Nat).getD 16 0)) ∧
    sentPayloads (processBuffer
        { device_id := "w2", cpuTemp := none, cpuVolt := none, rssi := none,
          memUsage := none, diskUsage := none } 5
        (([0x50, 0x03, 0x0c] : List Nat) ++ (0 ^^^ 2 ^ 0) ::
          [0, 0, 0, 0, 0, 0, 0, 0, 0, 0, 0, 0x02, 0x4c])).1 = [] := by
  have h := c2_crc_acceptance
    { device_id := "w2", cpuTemp := none, cpuVolt := none, rssi := none,
      memUsage := none, diskUsage := none } 5
    [0x50, 0x03, 0x0c, 0, 0, 0, 0, 0, 0, 0, 0, 0, 0, 0, 0, 0x02, 0x4c]
    (by decide) (by decide) (by decide)
  refine ⟨by decide, by decide, by decide, h.1, ?_⟩
  exact h.2 [0x50, 0x03, 0x0c] 0 [0, 0, 0, 0, 0, 0, 0, 0, 0, 0, 0, 0x02, 0x4c] 0
    (by decide) (by decide) (by decide) (by decide) (by decide)

end Tiltmeter
